import Mathlib

/-!
Verification development for the C interface layer of a USRP control
library (file host/lib/usrp/usrp_c.cpp).  The layer maintains a
process-wide registry mapping integer device indices to a record holding
the native device object and two append-only collections of native
streamer objects.  We embed the registry, the handle structures and the
exposed operations as pure Lean functions on an explicit state, and
prove the spec claims about them.

Modelling conventions:
  - native objects (multi_usrp, rx_streamer, tx_streamer instances) are
    identified by opaque Nat ids; numeric payload values (clock rates,
    sample counts) are likewise carried as opaque Nat ids, since no claim
    depends on their arithmetic content;
  - C strings and byte buffers are lists of Nat byte values (0 is the
    null terminator, 44 is the comma);
  - the std::map registry is an association list with insert-overwrite
    and erase-by-key, mirroring the unique-key semantics of std::map;
  - the outcome of a forwarded native call is an input of type
    Except (List Nat) Nat: ok with the produced object or value, or
    error with the diagnostic message of the thrown exception;
  - undefined behavior (dereferencing a null shared pointer, indexing a
    vector out of range) is modelled by a distinguished outcome
    constructor, separate from every returned status code.
-/

/-- Status codes of the closed error enumeration uhd_error (uhd/error.h).
The source file returns UHD_ERROR_NONE on success, UHD_ERROR_INVALID_DEVICE
on a failed registry-liveness check, and the catch clauses of the wrapper
macros map a thrown native exception to one of the remaining categorized
codes; the single constructor UNKNOWN stands for all of those categories,
since no claim distinguishes between them. -/
inductive uhd_error where
  | NONE
  | INVALID_DEVICE
  | UNKNOWN
deriving DecidableEq

/-- Device handle: struct uhd_usrp, usrp_c.cpp lines 62-65. -/
structure uhd_usrp where
  usrp_index : Nat
  last_error : List Nat
deriving DecidableEq

/-- Transmit streamer handle: struct uhd_tx_streamer, lines 67-71. -/
structure uhd_tx_streamer where
  usrp_index : Nat
  streamer_index : Nat
  last_error : List Nat
deriving DecidableEq

/-- Receive streamer handle: struct uhd_rx_streamer, lines 73-77. -/
structure uhd_rx_streamer where
  usrp_index : Nat
  streamer_index : Nat
  last_error : List Nat
deriving DecidableEq

/-- Registry entry: struct usrp_ptr, lines 80-85.  ptr is the shared
pointer to the native device (none models a null shared pointer, the
state of a default-constructed usrp_ptr); the two vectors hold the
native streamer objects attached to this device. -/
structure usrp_ptr where
  ptr : Option Nat
  rx_streamers : List Nat
  tx_streamers : List Nat
deriving DecidableEq

/-- Value of a default-constructed usrp_ptr: null shared pointer and two
empty vectors.  This is what std::map operator[] value-initializes when
asked for an absent key. -/
def usrp_ptr.defaultCtor : usrp_ptr := ⟨none, [], []⟩

/-- The registry map type usrp_ptrs = std::map<size_t, usrp_ptr>
(line 89), embedded as an association list with unique keys. -/
def usrp_ptrs := List (Nat × usrp_ptr)

instance : DecidableEq usrp_ptrs := by
  unfold usrp_ptrs
  infer_instance

/-- Lookup of a key, as std::map::find. -/
def mapFind? (k : Nat) : usrp_ptrs → Option usrp_ptr
  | [] => none
  | (k1, v) :: rest => if k1 = k then some v else mapFind? k rest

/-- Key-presence test, as std::map::count (which returns 0 or 1). -/
def mapCount (k : Nat) (m : usrp_ptrs) : Bool :=
  (mapFind? k m).isSome

/-- Insertion with overwrite, the effect of map[k] = v. -/
def mapInsert (k : Nat) (v : usrp_ptr) : usrp_ptrs → usrp_ptrs
  | [] => [(k, v)]
  | (k1, v1) :: rest =>
      if k1 = k then (k, v) :: rest else (k1, v1) :: mapInsert k v rest

/-- Erasure by key, as std::map::erase(k).  Keys are unique in every
state reachable through the modelled operations, so removing every pair
with the key is the same as removing the one pair std::map stores. -/
def mapErase (k : Nat) : usrp_ptrs → usrp_ptrs
  | [] => []
  | (k1, v1) :: rest =>
      if k1 = k then mapErase k rest else (k1, v1) :: mapErase k rest

/-- Process-wide mutable state of the layer: the static counter
usrp_ptr::usrp_counter (line 86) and the singleton registry returned by
get_usrp_ptrs() (line 91). -/
structure registry_state where
  usrp_counter : Nat
  registry : usrp_ptrs
deriving DecidableEq

/-- Outcome of a call whose body may hit undefined behavior.  ret models
a normal return with a status code and the value written to the output
parameter, if any; undef models a crash (null shared-pointer
dereference or out-of-range vector indexing) that never produces a
status code. -/
inductive Outcome (α : Type) where
  | ret (code : uhd_error) (out : Option α)
  | undef
deriving DecidableEq

/-- The USRP(h_ptr) macro, line 93:
get_usrp_ptrs()[h_ptr->usrp_index].ptr.  std::map operator[] inserts a
value-initialized entry when the key is absent, so the lookup returns
the (possibly null) device pointer together with the possibly enlarged
registry. -/
def USRP_deref (s : registry_state) (idx : Nat) : Option Nat × registry_state :=
  match mapFind? idx s.registry with
  | some e => (e.ptr, s)
  | none =>
      (usrp_ptr.defaultCtor.ptr,
       { s with registry := mapInsert idx usrp_ptr.defaultCtor s.registry })

/-- The RX_STREAMER(h_ptr) macro, line 94:
get_usrp_ptrs()[h_ptr->usrp_index].rx_streamers[h_ptr->streamer_index].
Auto-vivifies an absent device key exactly as USRP_deref; a
streamer_index outside the vector is out-of-range access, reported as
none. -/
def RX_STREAMER_deref (s : registry_state) (h : uhd_rx_streamer) :
    Option Nat × registry_state :=
  match mapFind? h.usrp_index s.registry with
  | some e => (e.rx_streamers.get? h.streamer_index, s)
  | none =>
      (usrp_ptr.defaultCtor.rx_streamers.get? h.streamer_index,
       { s with registry := mapInsert h.usrp_index usrp_ptr.defaultCtor s.registry })

/-- The TX_STREAMER(h_ptr) macro, line 95, mirror of RX_STREAMER. -/
def TX_STREAMER_deref (s : registry_state) (h : uhd_tx_streamer) :
    Option Nat × registry_state :=
  match mapFind? h.usrp_index s.registry with
  | some e => (e.tx_streamers.get? h.streamer_index, s)
  | none =>
      (usrp_ptr.defaultCtor.tx_streamers.get? h.streamer_index,
       { s with registry := mapInsert h.usrp_index usrp_ptr.defaultCtor s.registry })

/-!
Byte-buffer primitives.  A destination buffer of capacity n is a list of
n byte values; the source string is the list of its bytes (the stored
std::string values hold no embedded null bytes, and c_str() terminates
them with a null that strncpy treats as the copy limit).
-/

/-- memset(buf, 0, n) over a buffer of capacity n, lines 161, 244, 314. -/
def memset0 (n : Nat) : List Nat := List.replicate n 0

/-- Effect of strncpy(dst, src, n) on a buffer dst: the first n bytes
become the first n bytes of src, padded with null bytes up to n when src
is shorter than n; bytes of dst beyond n are untouched.  When src has at
least n bytes, exactly n bytes of src are copied and no null terminator
is written. -/
def strncpyWrite (dst src : List Nat) (n : Nat) : List Nat :=
  (src.take n ++ List.replicate (n - src.length) 0) ++ dst.drop n

/-- Bytes of the C string stored in a buffer: everything before the
first null byte. -/
def cstring (buf : List Nat) : List Nat :=
  buf.takeWhile (fun b => decide (b ≠ 0))

/-- uhd_usrp_last_error, lines 308-317: memset the caller buffer to null
bytes, then strncpy the stored last_error string into it.  Returns the
buffer contents after the call. -/
def uhd_usrp_last_error_buf (h : uhd_usrp) (strbuffer_len : Nat) : List Nat :=
  strncpyWrite (memset0 strbuffer_len) h.last_error strbuffer_len

/-- uhd_usrp_get_pp_string, lines 429-437: strncpy of the pretty-print
string into the caller buffer, with no preceding memset, so the bytes
beyond the copied region keep their previous contents.  buf is the
buffer contents before the call, pp the string reported by the native
get_pp_string. -/
def uhd_usrp_get_pp_string_buf (pp : List Nat) (buf : List Nat)
    (strbuffer_len : Nat) : List Nat :=
  strncpyWrite buf pp strbuffer_len

/-- uhd_usrp_get_master_clock_rate, lines 419-427.  The body resolves
USRP(h) through the auto-vivifying map lookup and calls
get_master_clock_rate on the resulting shared pointer; a null pointer
dereference is undefined behavior.  native is the outcome of the
forwarded call when it is reached.  The UHD_SAFE_C_SAVE_ERROR wrapper is
modelled from the spec: a fault raised by the forwarded call is caught,
converted to a categorized status code, and its diagnostic text is
stored into the handle last_error field (its definition lives in an
uhd/error.h header that is not part of src/). -/
def uhd_usrp_get_master_clock_rate (native : Except (List Nat) Nat)
    (h : uhd_usrp) (s : registry_state) :
    Outcome Nat × registry_state × uhd_usrp :=
  match USRP_deref s h.usrp_index with
  | (none, s1) => (Outcome.undef, s1, h)
  | (some _, s1) =>
      match native with
      | Except.ok v => (Outcome.ret uhd_error.NONE (some v), s1, h)
      | Except.error msg =>
          (Outcome.ret uhd_error.UNKNOWN none, s1, { h with last_error := msg })

/-- uhd_rx_streamer_recv, lines 131-144.  Resolves RX_STREAMER(h) twice
(channel count, then recv) through the auto-vivifying lookup; an absent
device key or an out-of-range streamer index is undefined behavior
(null pointer dereference or vector out-of-range access).  native is
the outcome of the forwarded recv; on a fault the
UHD_SAFE_C_SAVE_ERROR wrapper (modelled from the spec as above) stores
the diagnostic into the handle and returns a categorized code, else the
received item count is written to the output parameter. -/
def uhd_rx_streamer_recv (native : Except (List Nat) Nat)
    (h : uhd_rx_streamer) (s : registry_state) :
    Outcome Nat × registry_state × uhd_rx_streamer :=
  match RX_STREAMER_deref s h with
  | (none, s1) => (Outcome.undef, s1, h)
  | (some _, s1) =>
      match native with
      | Except.ok v => (Outcome.ret uhd_error.NONE (some v), s1, h)
      | Except.error msg =>
          (Outcome.ret uhd_error.UNKNOWN none, s1, { h with last_error := msg })

/-- uhd_rx_streamer_free, lines 108-115: under its serializing lock the
call deletes the caller-visible handle and nulls the caller pointer; it
never touches the registry, so the process state is returned
unchanged.  The freed handle is none in the result. -/
def uhd_rx_streamer_free (_h : uhd_rx_streamer) (s : registry_state) :
    uhd_error × registry_state × Option uhd_rx_streamer :=
  (uhd_error.NONE, s, none)

/-- uhd_tx_streamer_free, lines 179-188, mirror of the receive case. -/
def uhd_tx_streamer_free (_h : uhd_tx_streamer) (s : registry_state) :
    uhd_error × registry_state × Option uhd_tx_streamer :=
  (uhd_error.NONE, s, none)

/-- uhd_usrp_make, lines 266-289.  Under the creation lock: read the
static counter and increment it, then run the native device
construction (device_addr_t parsing plus multi_usrp::make; native is
its outcome), then insert the new entry under the saved index and
allocate the output handle carrying that index and an empty last_error
string.  A fault thrown by the construction is caught by the UHD_SAFE_C
wrapper (modelled from the spec: the macro lives in an uhd/error.h
header not part of src/, takes no handle argument, and converts the
fault to a categorized status code without storing text anywhere); the
counter increment has already happened, and neither the registry nor
the caller handle pointer is written. -/
def uhd_usrp_make (native : Except (List Nat) Nat) (s : registry_state) :
    uhd_error × registry_state × Option uhd_usrp :=
  let usrp_count := s.usrp_counter
  let s1 : registry_state := { s with usrp_counter := s.usrp_counter + 1 }
  match native with
  | Except.error _ => (uhd_error.UNKNOWN, s1, none)
  | Except.ok dev =>
      let P : usrp_ptr := { ptr := some dev, rx_streamers := [], tx_streamers := [] }
      (uhd_error.NONE,
       { s1 with registry := mapInsert usrp_count P s1.registry },
       some { usrp_index := usrp_count, last_error := [] })

/-- uhd_usrp_free, lines 291-306.  Under the destruction lock: if the
handle index is not a registry key, return INVALID_DEVICE without
touching anything (the handle stays allocated and unchanged); otherwise
erase the entry, delete the handle and null the caller pointer. -/
def uhd_usrp_free (h : uhd_usrp) (s : registry_state) :
    uhd_error × registry_state × Option uhd_usrp :=
  if mapCount h.usrp_index s.registry = false then
    (uhd_error.INVALID_DEVICE, s, some h)
  else
    (uhd_error.NONE,
     { s with registry := mapErase h.usrp_index s.registry }, none)

/-- uhd_usrp_get_rx_stream, lines 319-339.  Under the stream-acquisition
lock: if the device index is not a registry key, return INVALID_DEVICE
with the streamer handle untouched.  Otherwise run the native
get_rx_stream (native is its outcome); a fault is caught by the plain
UHD_SAFE_C wrapper before the push_back happens, leaving state and
handles unchanged (and storing no text, since the macro has no handle
argument).  On success the result is appended to the rx_streamers
vector and the streamer handle is stamped with the device index and
with the new vector size minus one. -/
def uhd_usrp_get_rx_stream (native : Except (List Nat) Nat)
    (h_u : uhd_usrp) (h_s : uhd_rx_streamer) (s : registry_state) :
    uhd_error × registry_state × uhd_usrp × uhd_rx_streamer :=
  if mapCount h_u.usrp_index s.registry = false then
    (uhd_error.INVALID_DEVICE, s, h_u, h_s)
  else
    match native with
    | Except.error _ => (uhd_error.UNKNOWN, s, h_u, h_s)
    | Except.ok obj =>
        let entry := (mapFind? h_u.usrp_index s.registry).getD usrp_ptr.defaultCtor
        let entry1 := { entry with rx_streamers := entry.rx_streamers ++ [obj] }
        (uhd_error.NONE,
         { s with registry := mapInsert h_u.usrp_index entry1 s.registry },
         h_u,
         { h_s with usrp_index := h_u.usrp_index,
                    streamer_index := entry1.rx_streamers.length - 1 })

/-- uhd_usrp_get_tx_stream, lines 341-361, mirror of the receive case on
the tx_streamers vector. -/
def uhd_usrp_get_tx_stream (native : Except (List Nat) Nat)
    (h_u : uhd_usrp) (h_s : uhd_tx_streamer) (s : registry_state) :
    uhd_error × registry_state × uhd_usrp × uhd_tx_streamer :=
  if mapCount h_u.usrp_index s.registry = false then
    (uhd_error.INVALID_DEVICE, s, h_u, h_s)
  else
    match native with
    | Except.error _ => (uhd_error.UNKNOWN, s, h_u, h_s)
    | Except.ok obj =>
        let entry := (mapFind? h_u.usrp_index s.registry).getD usrp_ptr.defaultCtor
        let entry1 := { entry with tx_streamers := entry.tx_streamers ++ [obj] }
        (uhd_error.NONE,
         { s with registry := mapInsert h_u.usrp_index entry1 s.registry },
         h_u,
         { h_s with usrp_index := h_u.usrp_index,
                    streamer_index := entry1.tx_streamers.length - 1 })

/-- Sequence of N device creations with no intervening destruction, all
of whose native constructions succeed: devs lists the native device
objects produced in order.  Returns the handles of the successful calls
in creation order together with the final state.  The branch for a
missing handle is unreachable for successful constructions and merely
keeps the function total. -/
def runMakes (devs : List Nat) (s : registry_state) :
    List uhd_usrp × registry_state :=
  match devs with
  | [] => ([], s)
  | d :: rest =>
      match uhd_usrp_make (Except.ok d) s with
      | (_, s1, some h) =>
          let r := runMakes rest s1
          (h :: r.1, r.2)
      | (_, s1, none) => runMakes rest s1

/-!
Comma-joined list outputs.  Every list-valued query of the source file
repeats the same marshalling body: store the element count through the
count output parameter, concatenate every element followed by a comma,
drop the trailing comma when the list is nonempty, memset the caller
buffer and strncpy the joined string into it (e.g.
uhd_usrp_get_rx_gain_names lines 968-991, uhd_usrp_get_time_sources
lines 573-596).
-/

/-- The BOOST_FOREACH accumulation loop: every element followed by a
comma, folded left starting from the empty string. -/
def joinCommaFold (elems : List (List Nat)) : List Nat :=
  elems.foldl (fun acc e => acc ++ e ++ [44]) []

/-- The joined string after the resize step: the trailing comma is
dropped when the element list is nonempty. -/
def joinComma (elems : List (List Nat)) : List Nat :=
  if elems.length > 0 then (joinCommaFold elems).dropLast else joinCommaFold elems

/-- Recursive form of the join, used to state and prove the round-trip:
elements interleaved with single commas. -/
def joinCommaRec : List (List Nat) → List Nat
  | [] => []
  | [e] => e
  | e :: rest => e ++ 44 :: joinCommaRec rest

/-- Splitting a byte string on the comma byte: the inverse direction of
the round-trip, as a caller of the interface would decode the buffer.
Always returns at least one field. -/
def splitComma : List Nat → List (List Nat)
  | [] => [[]]
  | b :: rest =>
      if b = 44 then [] :: splitComma rest
      else
        match splitComma rest with
        | f :: fs => (b :: f) :: fs
        | [] => [[b]]

/-- Shared marshalling body of the list-valued queries: the count
written to the count output parameter and the buffer contents after
memset plus strncpy of the comma-joined elements. -/
def listOutRun (elems : List (List Nat)) (strbuffer_len : Nat) :
    Nat × List Nat :=
  (elems.length,
   strncpyWrite (memset0 strbuffer_len) (joinComma elems) strbuffer_len)

/-- uhd_usrp_get_rx_gain_names, lines 968-991: elems is the gain-name
list reported by the native get_rx_gain_names. -/
def uhd_usrp_get_rx_gain_names_run : List (List Nat) → Nat → Nat × List Nat :=
  listOutRun

/-- uhd_usrp_get_time_sources, lines 573-596: elems is the time-source
list reported by the native get_time_sources. -/
def uhd_usrp_get_time_sources_run : List (List Nat) → Nat → Nat × List Nat :=
  listOutRun

/-!
Lock-extent traces.  For the concurrency claim the relevant fact is the
program-order position of each forwarded native call relative to the
scoped_lock that guards the operation, so each guarded operation is
embedded a second time as its trace of lock, registry and native-call
events in source order.  A scoped_lock is released when the enclosing
block ends, hence every trace ends with the release.
-/

/-- Events of a guarded operation, in program order. -/
inductive REvent where
  | acquire : Nat → REvent
  | release : Nat → REvent
  | registryOp : REvent
  | nativeCall : REvent
deriving DecidableEq

/-- Lock identity of _usrp_make_mutex (line 266). -/
def lock_usrp_make : Nat := 0

/-- Lock identity of _usrp_get_rx_stream_mutex (line 319). -/
def lock_get_rx_stream : Nat := 2

/-- Lock identity of _usrp_get_tx_stream_mutex (line 341). -/
def lock_get_tx_stream : Nat := 3

/-- Trace of uhd_usrp_make, lines 266-289: scoped_lock acquisition,
counter read and increment, the forwarded multi_usrp::make call, the
registry insertion, and the release at the end of the block. -/
def uhd_usrp_make_trace : List REvent :=
  [REvent.acquire lock_usrp_make, REvent.registryOp, REvent.nativeCall,
   REvent.registryOp, REvent.release lock_usrp_make]

/-- Trace of uhd_usrp_get_rx_stream, lines 319-339: scoped_lock
acquisition, the liveness check, the forwarded get_rx_stream call, the
push_back, and the release at the end of the block. -/
def uhd_usrp_get_rx_stream_trace : List REvent :=
  [REvent.acquire lock_get_rx_stream, REvent.registryOp, REvent.nativeCall,
   REvent.registryOp, REvent.release lock_get_rx_stream]

/-- Trace of uhd_usrp_get_tx_stream, lines 341-361, mirror of the
receive case. -/
def uhd_usrp_get_tx_stream_trace : List REvent :=
  [REvent.acquire lock_get_tx_stream, REvent.registryOp, REvent.nativeCall,
   REvent.registryOp, REvent.release lock_get_tx_stream]

/-- Scan of a trace tracking whether lock l is currently held; true as
soon as a native call happens while it is held. -/
def heldAcrossNativeAux (l : Nat) (inside : Bool) : List REvent → Bool
  | [] => false
  | REvent.acquire l1 :: rest => heldAcrossNativeAux l (inside || l1 == l) rest
  | REvent.release l1 :: rest => heldAcrossNativeAux l (inside && !(l1 == l)) rest
  | REvent.nativeCall :: rest => inside || heldAcrossNativeAux l inside rest
  | REvent.registryOp :: rest => heldAcrossNativeAux l inside rest

/-- Whether a forwarded native call occurs while lock l is held. -/
def heldAcrossNative (l : Nat) (t : List REvent) : Bool :=
  heldAcrossNativeAux l false t

/-!
Theorems.
-/

theorem mapFind?_insert_self (k : Nat) (v : usrp_ptr) (m : usrp_ptrs) :
    mapFind? k (mapInsert k v m) = some v := by
  induction m with
  | nil => simp [mapInsert, mapFind?]
  | cons p rest ih =>
      obtain ⟨k1, v1⟩ := p
      by_cases h : k1 = k
      · simp [mapInsert, h, mapFind?]
      · simp [mapInsert, h, mapFind?, ih]

theorem mapFind?_insert_ne (k j : Nat) (v : usrp_ptr) (m : usrp_ptrs)
    (hne : j ≠ k) : mapFind? j (mapInsert k v m) = mapFind? j m := by
  have hkj : ¬ k = j := fun h => hne h.symm
  induction m with
  | nil => simp [mapInsert, mapFind?, hkj]
  | cons p rest ih =>
      obtain ⟨k1, v1⟩ := p
      by_cases h : k1 = k
      · subst h
        simp [mapInsert, mapFind?, hkj]
      · simp [mapInsert, h, mapFind?, ih]

theorem mapFind?_erase_self (k : Nat) (m : usrp_ptrs) :
    mapFind? k (mapErase k m) = none := by
  induction m with
  | nil => rfl
  | cons p rest ih =>
      obtain ⟨k1, v1⟩ := p
      by_cases h : k1 = k
      · simpa [mapErase, h] using ih
      · simp [mapErase, h, mapFind?, ih]

theorem mapFind?_erase_ne (k j : Nat) (m : usrp_ptrs) (hne : j ≠ k) :
    mapFind? j (mapErase k m) = mapFind? j m := by
  have hkj : ¬ k = j := fun h => hne h.symm
  induction m with
  | nil => rfl
  | cons p rest ih =>
      obtain ⟨k1, v1⟩ := p
      by_cases h : k1 = k
      · subst h
        simp [mapErase, mapFind?, hkj, ih]
      · simp [mapErase, h, mapFind?, ih]

/-- Claim C1: the read-path lookup macros auto-vivify.  Evaluating
uhd_usrp_get_master_clock_rate on a handle whose index 0 is absent from
an empty registry: the call does not return INVALID_DEVICE (it crashes
on a null shared-pointer dereference, modelled as undef), writes nothing
to the output parameter, and as a side effect of the read the registry
has gained a default-constructed entry under key 0.  The same happens to
uhd_rx_streamer_recv on an unattached streamer handle. -/
theorem C1_absent_index_autovivifies_and_crashes :
    (uhd_usrp_get_master_clock_rate (Except.ok 7) ⟨0, []⟩ ⟨0, []⟩
      = (Outcome.undef, ⟨0, [(0, usrp_ptr.defaultCtor)]⟩, ⟨0, []⟩))
    ∧ mapCount 0
        (uhd_usrp_get_master_clock_rate (Except.ok 7) ⟨0, []⟩ ⟨0, []⟩).2.1.registry
        = true
    ∧ (uhd_rx_streamer_recv (Except.ok 7) ⟨0, 0, []⟩ ⟨0, []⟩
      = (Outcome.undef, ⟨0, [(0, usrp_ptr.defaultCtor)]⟩, ⟨0, 0, []⟩))
    ∧ mapCount 0
        (uhd_rx_streamer_recv (Except.ok 7) ⟨0, 0, []⟩ ⟨0, []⟩).2.1.registry
        = true := by
  decide

/-- Claim C3: with a stored string at least as long as the buffer
capacity, the strncpy-based accessor leaves no null terminator in the
buffer.  Evaluating uhd_usrp_last_error with last_error bytes [97, 98]
and strbuffer_len 2: the buffer afterwards is exactly [97, 98] (so at
most strbuffer_len bytes were written), but none of its strbuffer_len
bytes is null, contradicting the guaranteed null-termination within the
capacity.  The memset-free uhd_usrp_get_pp_string behaves the same
way. -/
theorem C3_strncpy_drops_null_terminator :
    (uhd_usrp_last_error_buf ⟨0, [97, 98]⟩ 2 = [97, 98])
    ∧ ((uhd_usrp_last_error_buf ⟨0, [97, 98]⟩ 2).all (fun b => decide (b ≠ 0))
        = true)
    ∧ (uhd_usrp_get_pp_string_buf [97, 98] [1, 1] 2 = [97, 98])
    ∧ ((uhd_usrp_get_pp_string_buf [97, 98] [1, 1] 2).all
        (fun b => decide (b ≠ 0)) = true) := by
  decide

/-- Claim C9: when the native device construction inside uhd_usrp_make
fails, the call returns a failure status, inserts no registry entry and
writes no handle, yet the counter was already incremented, so the index
is permanently consumed: a next successful creation from a state where
the consumed index is not a registry key receives the strictly larger
index counter + 1, and the consumed index is still not a key
afterwards. -/
theorem C9_make_failure_consumes_index (msg : List Nat) (d : Nat)
    (s : registry_state)
    (hfresh : mapCount s.usrp_counter s.registry = false) :
    (uhd_usrp_make (Except.error msg) s).1 ≠ uhd_error.NONE
    ∧ (uhd_usrp_make (Except.error msg) s).2.2 = none
    ∧ (uhd_usrp_make (Except.error msg) s).2.1.registry = s.registry
    ∧ (uhd_usrp_make (Except.error msg) s).2.1.usrp_counter = s.usrp_counter + 1
    ∧ (uhd_usrp_make (Except.ok d) (uhd_usrp_make (Except.error msg) s).2.1).2.2
        = some { usrp_index := s.usrp_counter + 1, last_error := [] }
    ∧ mapCount s.usrp_counter
        (uhd_usrp_make (Except.ok d)
          (uhd_usrp_make (Except.error msg) s).2.1).2.1.registry = false := by
  refine ⟨by simp [uhd_usrp_make], rfl, rfl, rfl, rfl, ?_⟩
  have h1 : mapFind? s.usrp_counter
      (mapInsert (s.usrp_counter + 1)
        { ptr := some d, rx_streamers := [], tx_streamers := [] } s.registry)
      = mapFind? s.usrp_counter s.registry :=
    mapFind?_insert_ne _ _ _ _ (by omega)
  simpa [uhd_usrp_make, mapCount, h1] using hfresh

/-- Witness for C9 at a concrete state: counter 0, empty registry,
failing construction with message byte 101, then a successful
construction of device 5. -/
theorem C9_make_failure_consumes_index_witness :
    (uhd_usrp_make (Except.error [101]) ⟨0, []⟩).1 ≠ uhd_error.NONE
    ∧ (uhd_usrp_make (Except.error [101]) ⟨0, []⟩).2.2 = none
    ∧ (uhd_usrp_make (Except.error [101]) ⟨0, []⟩).2.1.registry = []
    ∧ (uhd_usrp_make (Except.error [101]) ⟨0, []⟩).2.1.usrp_counter = 0 + 1
    ∧ (uhd_usrp_make (Except.ok 5) (uhd_usrp_make (Except.error [101]) ⟨0, []⟩).2.1).2.2
        = some { usrp_index := 0 + 1, last_error := [] }
    ∧ mapCount 0
        (uhd_usrp_make (Except.ok 5)
          (uhd_usrp_make (Except.error [101]) ⟨0, []⟩).2.1).2.1.registry = false :=
  C9_make_failure_consumes_index [101] 5 ⟨0, []⟩ (by decide)

/-- Claim C5: uhd_usrp_free on a handle whose index is a registry key
returns success, frees the handle, removes exactly that key (lookup of
the key afterwards fails, lookup of every other key is unchanged) and
leaves the counter alone; on a handle whose index is absent it returns
INVALID_DEVICE and changes nothing, the handle included. -/
theorem C5_free_erases_exactly_or_rejects (h : uhd_usrp)
    (s : registry_state) :
    (mapCount h.usrp_index s.registry = true →
      (uhd_usrp_free h s).1 = uhd_error.NONE
      ∧ (uhd_usrp_free h s).2.2 = none
      ∧ mapFind? h.usrp_index (uhd_usrp_free h s).2.1.registry = none
      ∧ (∀ k, k ≠ h.usrp_index →
          mapFind? k (uhd_usrp_free h s).2.1.registry = mapFind? k s.registry)
      ∧ (uhd_usrp_free h s).2.1.usrp_counter = s.usrp_counter)
    ∧ (mapCount h.usrp_index s.registry = false →
      uhd_usrp_free h s = (uhd_error.INVALID_DEVICE, s, some h)) := by
  constructor
  · intro hc
    refine ⟨by simp [uhd_usrp_free, hc], by simp [uhd_usrp_free, hc], ?_, ?_, ?_⟩
    · simpa [uhd_usrp_free, hc] using mapFind?_erase_self h.usrp_index s.registry
    · intro k hk
      simpa [uhd_usrp_free, hc] using mapFind?_erase_ne h.usrp_index k s.registry hk
    · simp [uhd_usrp_free, hc]
  · intro hc
    simp [uhd_usrp_free, hc]

/-- Witness for C5 at concrete states: freeing key 0 out of a registry
holding keys 0 and 1 succeeds and keeps key 1 intact; freeing the
absent key 3 is rejected with the state and handle returned intact. -/
theorem C5_free_erases_exactly_or_rejects_witness :
    ((uhd_usrp_free ⟨0, []⟩
        ⟨2, [(0, ⟨some 5, [], []⟩), (1, ⟨some 6, [], []⟩)]⟩).1 = uhd_error.NONE
      ∧ mapFind? 1 (uhd_usrp_free ⟨0, []⟩
          ⟨2, [(0, ⟨some 5, [], []⟩), (1, ⟨some 6, [], []⟩)]⟩).2.1.registry
        = mapFind? 1 [(0, ⟨some 5, [], []⟩), (1, ⟨some 6, [], []⟩)])
    ∧ uhd_usrp_free ⟨3, []⟩ ⟨2, [(0, ⟨some 5, [], []⟩)]⟩
        = (uhd_error.INVALID_DEVICE, ⟨2, [(0, ⟨some 5, [], []⟩)]⟩, some ⟨3, []⟩) := by
  have h1 := C5_free_erases_exactly_or_rejects ⟨0, []⟩
    ⟨2, [(0, ⟨some 5, [], []⟩), (1, ⟨some 6, [], []⟩)]⟩
  have h2 := C5_free_erases_exactly_or_rejects ⟨3, []⟩ ⟨2, [(0, ⟨some 5, [], []⟩)]⟩
  exact ⟨⟨(h1.1 (by decide)).1, (h1.1 (by decide)).2.2.2.1 1 (by decide)⟩,
         h2.2 (by decide)⟩

/-- Claim C10, counterexample: in uhd_usrp_make the creation lock is
acquired at the top of the block and the scoped_lock only releases it
when the block ends, so it is held across the forwarded
multi_usrp::make call, contradicting the claim that no lock is ever
held across a forwarded call into native code. -/
theorem C10_counterexample_lock_held_across_native :
    heldAcrossNative lock_usrp_make uhd_usrp_make_trace = true := by decide

/-- Claim C10, amended: each of the creation and stream-acquisition
locks is acquired as the first action of its operation, released as the
last, and is therefore held across the whole body, including across the
forwarded native call (device construction in uhd_usrp_make, native
streamer construction in uhd_usrp_get_rx_stream and
uhd_usrp_get_tx_stream). -/
theorem C10_amended_locks_span_whole_operation :
    (heldAcrossNative lock_usrp_make uhd_usrp_make_trace = true
      ∧ uhd_usrp_make_trace.head? = some (REvent.acquire lock_usrp_make)
      ∧ uhd_usrp_make_trace.getLast? = some (REvent.release lock_usrp_make))
    ∧ (heldAcrossNative lock_get_rx_stream uhd_usrp_get_rx_stream_trace = true
      ∧ uhd_usrp_get_rx_stream_trace.head?
          = some (REvent.acquire lock_get_rx_stream)
      ∧ uhd_usrp_get_rx_stream_trace.getLast?
          = some (REvent.release lock_get_rx_stream))
    ∧ (heldAcrossNative lock_get_tx_stream uhd_usrp_get_tx_stream_trace = true
      ∧ uhd_usrp_get_tx_stream_trace.head?
          = some (REvent.acquire lock_get_tx_stream)
      ∧ uhd_usrp_get_tx_stream_trace.getLast?
          = some (REvent.release lock_get_tx_stream)) := by decide

theorem uhd_usrp_make_ok (d : Nat) (s : registry_state) :
    uhd_usrp_make (Except.ok d) s
      = (uhd_error.NONE,
         { usrp_counter := s.usrp_counter + 1,
           registry := mapInsert s.usrp_counter
             { ptr := some d, rx_streamers := [], tx_streamers := [] }
             s.registry },
         some { usrp_index := s.usrp_counter, last_error := [] }) := rfl

theorem runMakes_cons (d : Nat) (devs : List Nat) (s : registry_state) :
    runMakes (d :: devs) s
      = ((⟨s.usrp_counter, []⟩ : uhd_usrp) ::
          (runMakes devs
            ⟨s.usrp_counter + 1,
             mapInsert s.usrp_counter ⟨some d, [], []⟩ s.registry⟩).1,
         (runMakes devs
            ⟨s.usrp_counter + 1,
             mapInsert s.usrp_counter ⟨some d, [], []⟩ s.registry⟩).2) := rfl

theorem runMakes_find_lt (devs : List Nat) (s : registry_state) (k : Nat)
    (hk : k < s.usrp_counter) :
    mapFind? k (runMakes devs s).2.registry = mapFind? k s.registry := by
  induction devs generalizing s with
  | nil => rfl
  | cons d rest ih =>
      rw [runMakes_cons]
      have step := ih ⟨s.usrp_counter + 1,
        mapInsert s.usrp_counter ⟨some d, [], []⟩ s.registry⟩
        (by show k < s.usrp_counter + 1; omega)
      rw [step]
      exact mapFind?_insert_ne s.usrp_counter k ⟨some d, [], []⟩ s.registry
        (by omega)

theorem runMakes_indices (devs : List Nat) (s : registry_state) :
    (runMakes devs s).1.map (fun h => h.usrp_index)
      = List.range' s.usrp_counter devs.length := by
  induction devs generalizing s with
  | nil => rfl
  | cons d rest ih =>
      rw [runMakes_cons, List.length_cons, List.range'_succ, List.map_cons]
      exact congrArg (fun t => s.usrp_counter :: t) (ih _)

theorem runMakes_find_at (devs : List Nat) (s : registry_state) (i d : Nat)
    (hget : devs.get? i = some d) :
    mapFind? (s.usrp_counter + i) (runMakes devs s).2.registry
      = some { ptr := some d, rx_streamers := [], tx_streamers := [] } := by
  induction devs generalizing s i with
  | nil => cases hget
  | cons d0 rest ih =>
      rw [runMakes_cons]
      cases i with
      | zero =>
          have hd : d0 = d := by
            simpa [List.get?] using hget
          subst hd
          have step := runMakes_find_lt rest
            ⟨s.usrp_counter + 1,
             mapInsert s.usrp_counter ⟨some d0, [], []⟩ s.registry⟩
            s.usrp_counter (by show s.usrp_counter < s.usrp_counter + 1; omega)
          rw [Nat.add_zero, step]
          exact mapFind?_insert_self s.usrp_counter ⟨some d0, [], []⟩ s.registry
      | succ j =>
          have hget2 : rest.get? j = some d := by
            simpa [List.get?] using hget
          have := ih ⟨s.usrp_counter + 1,
            mapInsert s.usrp_counter ⟨some d0, [], []⟩ s.registry⟩ j hget2
          have harith : s.usrp_counter + (j + 1) = s.usrp_counter + 1 + j := by
            omega
          rw [harith]
          exact this

/-- Claim C4: a sequence of N device creations with no intervening
destruction yields handles whose device indices are exactly the N
consecutive counter values in creation order, hence pairwise distinct
and strictly increasing, and in the final state each index is a registry
key mapped to the device object created by that call. -/
theorem C4_sequential_makes_distinct_increasing (devs : List Nat)
    (s : registry_state) :
    ((runMakes devs s).1.map (fun h => h.usrp_index)
        = List.range' s.usrp_counter devs.length)
    ∧ List.Chain' (fun a b => a < b)
        ((runMakes devs s).1.map (fun h => h.usrp_index))
    ∧ ((runMakes devs s).1.map (fun h => h.usrp_index)).Nodup
    ∧ ∀ i d, devs.get? i = some d →
        mapFind? (s.usrp_counter + i) (runMakes devs s).2.registry
          = some { ptr := some d, rx_streamers := [], tx_streamers := [] } := by
  refine ⟨runMakes_indices devs s, ?_, ?_, fun i d h => runMakes_find_at devs s i d h⟩
  · rw [runMakes_indices devs s]
    exact (List.pairwise_lt_range' s.usrp_counter devs.length).chain'
  · rw [runMakes_indices devs s]
    exact List.nodup_range' s.usrp_counter devs.length

/-- Witness for C4: creating devices 5 and 7 from a fresh state yields
indices 0 and 1 and registers device 7 under key 1. -/
theorem C4_sequential_makes_distinct_increasing_witness :
    ((runMakes [5, 7] ⟨0, []⟩).1.map (fun h => h.usrp_index)
        = List.range' 0 2)
    ∧ mapFind? (0 + 1) (runMakes [5, 7] ⟨0, []⟩).2.registry
        = some { ptr := some 7, rx_streamers := [], tx_streamers := [] } := by
  have h := C4_sequential_makes_distinct_increasing [5, 7] ⟨0, []⟩
  exact ⟨h.1, h.2.2.2 1 7 rfl⟩

theorem get?_append_length {α : Type} (l : List α) (a : α) :
    (l ++ [a]).get? l.length = some a := by
  simp [List.get?_eq_getElem?, List.getElem?_concat_length]

theorem get?_append_left {α : Type} {l1 l2 : List α} {i : Nat}
    (hi : i < l1.length) : (l1 ++ l2).get? i = l1.get? i := by
  simp [List.get?_eq_getElem?, List.getElem?_append_left hi]

/-- Claim C2: when attach succeeds on a live device, the streamer handle
is stamped with the device index and with a streamer offset equal to the
number of streamers of that kind previously attached, its last_error
field is untouched, and resolving the stamped (index, offset) pair in
the new state yields exactly the native object just appended, without
changing the state; when the device index is absent, both attach calls
return INVALID_DEVICE and return state, device handle and streamer
handle (every field) unchanged. -/
theorem C2_attach_stamps_and_resolves (h_u : uhd_usrp)
    (s : registry_state) (e : usrp_ptr) (obj : Nat)
    (hfind : mapFind? h_u.usrp_index s.registry = some e) :
    (∀ h_s : uhd_rx_streamer,
      (uhd_usrp_get_rx_stream (Except.ok obj) h_u h_s s).1 = uhd_error.NONE
      ∧ (uhd_usrp_get_rx_stream (Except.ok obj) h_u h_s s).2.2.2
          = { h_s with usrp_index := h_u.usrp_index,
                       streamer_index := e.rx_streamers.length }
      ∧ RX_STREAMER_deref (uhd_usrp_get_rx_stream (Except.ok obj) h_u h_s s).2.1
          (uhd_usrp_get_rx_stream (Except.ok obj) h_u h_s s).2.2.2
          = (some obj, (uhd_usrp_get_rx_stream (Except.ok obj) h_u h_s s).2.1))
    ∧ (∀ h_s : uhd_tx_streamer,
      (uhd_usrp_get_tx_stream (Except.ok obj) h_u h_s s).1 = uhd_error.NONE
      ∧ (uhd_usrp_get_tx_stream (Except.ok obj) h_u h_s s).2.2.2
          = { h_s with usrp_index := h_u.usrp_index,
                       streamer_index := e.tx_streamers.length }
      ∧ TX_STREAMER_deref (uhd_usrp_get_tx_stream (Except.ok obj) h_u h_s s).2.1
          (uhd_usrp_get_tx_stream (Except.ok obj) h_u h_s s).2.2.2
          = (some obj, (uhd_usrp_get_tx_stream (Except.ok obj) h_u h_s s).2.1))
    ∧ (∀ (native : Except (List Nat) Nat) (h2 : uhd_usrp)
        (h_s : uhd_rx_streamer) (s2 : registry_state),
        mapCount h2.usrp_index s2.registry = false →
        uhd_usrp_get_rx_stream native h2 h_s s2
          = (uhd_error.INVALID_DEVICE, s2, h2, h_s))
    ∧ (∀ (native : Except (List Nat) Nat) (h2 : uhd_usrp)
        (h_s : uhd_tx_streamer) (s2 : registry_state),
        mapCount h2.usrp_index s2.registry = false →
        uhd_usrp_get_tx_stream native h2 h_s s2
          = (uhd_error.INVALID_DEVICE, s2, h2, h_s)) := by
  have hc : mapCount h_u.usrp_index s.registry = true := by
    simp [mapCount, hfind]
  refine ⟨?_, ?_, ?_, ?_⟩
  · intro h_s
    have hres : uhd_usrp_get_rx_stream (Except.ok obj) h_u h_s s
        = (uhd_error.NONE,
           ⟨s.usrp_counter,
            mapInsert h_u.usrp_index
              ⟨e.ptr, e.rx_streamers ++ [obj], e.tx_streamers⟩ s.registry⟩,
           h_u,
           ⟨h_u.usrp_index, (e.rx_streamers ++ [obj]).length - 1,
            h_s.last_error⟩) := by
      simp [uhd_usrp_get_rx_stream, hc, hfind]
    refine ⟨by rw [hres], by rw [hres]; simp, ?_⟩
    rw [hres]
    simp [RX_STREAMER_deref, mapFind?_insert_self, get?_append_length]
  · intro h_s
    have hres : uhd_usrp_get_tx_stream (Except.ok obj) h_u h_s s
        = (uhd_error.NONE,
           ⟨s.usrp_counter,
            mapInsert h_u.usrp_index
              ⟨e.ptr, e.rx_streamers, e.tx_streamers ++ [obj]⟩ s.registry⟩,
           h_u,
           ⟨h_u.usrp_index, (e.tx_streamers ++ [obj]).length - 1,
            h_s.last_error⟩) := by
      simp [uhd_usrp_get_tx_stream, hc, hfind]
    refine ⟨by rw [hres], by rw [hres]; simp, ?_⟩
    rw [hres]
    simp [TX_STREAMER_deref, mapFind?_insert_self, get?_append_length]
  · intro native h2 h_s s2 habs
    simp [uhd_usrp_get_rx_stream, habs]
  · intro native h2 h_s s2 habs
    simp [uhd_usrp_get_tx_stream, habs]

/-- Witness for C2: attaching native streamer 21 to device 0 of a
one-entry registry stamps the streamer handle with index 0 and offset 0
and preserves its last_error [7]; attaching to the absent index 5 is
rejected with everything unchanged. -/
theorem C2_attach_stamps_and_resolves_witness :
    ((uhd_usrp_get_rx_stream (Except.ok 21) ⟨0, []⟩ ⟨9, 9, [7]⟩
        ⟨1, [(0, ⟨some 11, [], []⟩)]⟩).2.2.2
      = { usrp_index := 0, streamer_index := 0, last_error := [7] })
    ∧ (uhd_usrp_get_rx_stream (Except.ok 99) ⟨5, []⟩ ⟨9, 9, []⟩ ⟨1, []⟩
        = (uhd_error.INVALID_DEVICE, ⟨1, []⟩, ⟨5, []⟩, ⟨9, 9, []⟩)) := by
  have h := C2_attach_stamps_and_resolves ⟨0, []⟩
    ⟨1, [(0, ⟨some 11, [], []⟩)]⟩ ⟨some 11, [], []⟩ 21 (by decide)
  exact ⟨(h.1 ⟨9, 9, [7]⟩).2.1,
         h.2.2.1 (Except.ok 99) ⟨5, []⟩ ⟨9, 9, []⟩ ⟨1, []⟩ (by decide)⟩

/-- Claim C8: the streamer collections of a registry entry only change
by appending at the end (the entry after a successful attach carries the
old collection plus the new object, every previously valid offset still
resolves to the same object, the other collection and all other entries
are untouched), and freeing a streamer handle of either kind returns
success and leaves the whole process state unchanged. -/
theorem C8_append_only_and_streamer_free_frame (s : registry_state) :
    (∀ h : uhd_rx_streamer,
        uhd_rx_streamer_free h s = (uhd_error.NONE, s, none))
    ∧ (∀ h : uhd_tx_streamer,
        uhd_tx_streamer_free h s = (uhd_error.NONE, s, none))
    ∧ (∀ (obj : Nat) (h_u : uhd_usrp) (h_s : uhd_rx_streamer) (e : usrp_ptr),
        mapFind? h_u.usrp_index s.registry = some e →
        mapFind? h_u.usrp_index
            (uhd_usrp_get_rx_stream (Except.ok obj) h_u h_s s).2.1.registry
          = some { e with rx_streamers := e.rx_streamers ++ [obj] }
        ∧ (∀ i, i < e.rx_streamers.length →
            (e.rx_streamers ++ [obj]).get? i = e.rx_streamers.get? i)
        ∧ (∀ k, k ≠ h_u.usrp_index →
            mapFind? k
              (uhd_usrp_get_rx_stream (Except.ok obj) h_u h_s s).2.1.registry
              = mapFind? k s.registry))
    ∧ (∀ (obj : Nat) (h_u : uhd_usrp) (h_s : uhd_tx_streamer) (e : usrp_ptr),
        mapFind? h_u.usrp_index s.registry = some e →
        mapFind? h_u.usrp_index
            (uhd_usrp_get_tx_stream (Except.ok obj) h_u h_s s).2.1.registry
          = some { e with tx_streamers := e.tx_streamers ++ [obj] }
        ∧ (∀ i, i < e.tx_streamers.length →
            (e.tx_streamers ++ [obj]).get? i = e.tx_streamers.get? i)
        ∧ (∀ k, k ≠ h_u.usrp_index →
            mapFind? k
              (uhd_usrp_get_tx_stream (Except.ok obj) h_u h_s s).2.1.registry
              = mapFind? k s.registry)) := by
  refine ⟨fun h => rfl, fun h => rfl, ?_, ?_⟩
  · intro obj h_u h_s e hfind
    have hc : mapCount h_u.usrp_index s.registry = true := by
      simp [mapCount, hfind]
    have hreg : (uhd_usrp_get_rx_stream (Except.ok obj) h_u h_s s).2.1.registry
        = mapInsert h_u.usrp_index
            { e with rx_streamers := e.rx_streamers ++ [obj] } s.registry := by
      simp [uhd_usrp_get_rx_stream, hc, hfind]
    refine ⟨?_, ?_, ?_⟩
    · rw [hreg]
      exact mapFind?_insert_self _ _ _
    · intro i hi
      exact get?_append_left hi
    · intro k hk
      rw [hreg]
      exact mapFind?_insert_ne _ _ _ _ hk
  · intro obj h_u h_s e hfind
    have hc : mapCount h_u.usrp_index s.registry = true := by
      simp [mapCount, hfind]
    have hreg : (uhd_usrp_get_tx_stream (Except.ok obj) h_u h_s s).2.1.registry
        = mapInsert h_u.usrp_index
            { e with tx_streamers := e.tx_streamers ++ [obj] } s.registry := by
      simp [uhd_usrp_get_tx_stream, hc, hfind]
    refine ⟨?_, ?_, ?_⟩
    · rw [hreg]
      exact mapFind?_insert_self _ _ _
    · intro i hi
      exact get?_append_left hi
    · intro k hk
      rw [hreg]
      exact mapFind?_insert_ne _ _ _ _ hk

/-- Witness for C8: in a registry holding devices 0 and 1, attaching
native streamer 33 to device 0 keeps offset 0 of its collection and
entry 1 intact, and a streamer free leaves the state unchanged. -/
theorem C8_append_only_and_streamer_free_frame_witness :
    (uhd_rx_streamer_free ⟨0, 0, []⟩
        ⟨2, [(0, ⟨some 5, [30], []⟩), (1, ⟨some 6, [], []⟩)]⟩
      = (uhd_error.NONE, ⟨2, [(0, ⟨some 5, [30], []⟩), (1, ⟨some 6, [], []⟩)]⟩,
         none))
    ∧ ([30, 33].get? 0 = [30].get? 0)
    ∧ mapFind? 1
        (uhd_usrp_get_rx_stream (Except.ok 33) ⟨0, []⟩ ⟨9, 9, []⟩
          ⟨2, [(0, ⟨some 5, [30], []⟩), (1, ⟨some 6, [], []⟩)]⟩).2.1.registry
      = mapFind? 1 [(0, ⟨some 5, [30], []⟩), (1, ⟨some 6, [], []⟩)] := by
  have h := C8_append_only_and_streamer_free_frame
    ⟨2, [(0, ⟨some 5, [30], []⟩), (1, ⟨some 6, [], []⟩)]⟩
  have hrx := h.2.2.1 33 ⟨0, []⟩ ⟨9, 9, []⟩ ⟨some 5, [30], []⟩ (by decide)
  exact ⟨h.1 ⟨0, 0, []⟩, hrx.2.1 0 (by decide), hrx.2.2 1 (by decide)⟩

/-- Claim C6, counterexample: uhd_usrp_get_rx_stream is an associated
call (it operates on an existing device handle), and when the forwarded
native streamer construction faults with message byte 120 on a live
device, the call returns a failure status but stores nothing: the
device handle comes back with its last_error still empty, because the
plain UHD_SAFE_C wrapper used there has no handle to write to. -/
theorem C6_counterexample_attach_fault_not_stored :
    (uhd_usrp_get_rx_stream (Except.error [120]) ⟨0, []⟩ ⟨9, 9, []⟩
        ⟨1, [(0, ⟨some 11, [], []⟩)]⟩).1 ≠ uhd_error.NONE
    ∧ (uhd_usrp_get_rx_stream (Except.error [120]) ⟨0, []⟩ ⟨9, 9, []⟩
        ⟨1, [(0, ⟨some 11, [], []⟩)]⟩).2.2.1 = ⟨0, []⟩ := by
  decide

/-- Claim C6, amended: every modelled operation converts a native fault
into a status code of the closed enumeration instead of letting it
escape; operations wrapped in the error-saving variant of the wrapper
(such as uhd_rx_streamer_recv) additionally store the diagnostic text
into the handle last_error before returning, while operations wrapped in
the plain variant (such as uhd_usrp_get_rx_stream) return only the
status code and leave every handle unchanged. -/
theorem C6_amended_fault_capture (msg : List Nat) (h : uhd_rx_streamer)
    (s : registry_state) (e : usrp_ptr) (obj : Nat)
    (hfind : mapFind? h.usrp_index s.registry = some e)
    (hobj : e.rx_streamers.get? h.streamer_index = some obj) :
    ((uhd_rx_streamer_recv (Except.error msg) h s).1
        = Outcome.ret uhd_error.UNKNOWN none
      ∧ (uhd_rx_streamer_recv (Except.error msg) h s).2.2.last_error = msg
      ∧ (uhd_rx_streamer_recv (Except.error msg) h s).2.1 = s)
    ∧ (∀ (h_u : uhd_usrp) (h_s : uhd_rx_streamer),
        mapCount h_u.usrp_index s.registry = true →
        (uhd_usrp_get_rx_stream (Except.error msg) h_u h_s s).1
            = uhd_error.UNKNOWN
        ∧ (uhd_usrp_get_rx_stream (Except.error msg) h_u h_s s).2.2.1 = h_u
        ∧ (uhd_usrp_get_rx_stream (Except.error msg) h_u h_s s).2.2.2 = h_s)
    ∧ (∀ v, (uhd_rx_streamer_recv (Except.ok v) h s).1
        = Outcome.ret uhd_error.NONE (some v)) := by
  have hderef : RX_STREAMER_deref s h = (some obj, s) := by
    simp only [RX_STREAMER_deref, hfind]
    rw [hobj]
  refine ⟨?_, ?_, ?_⟩
  · simp [uhd_rx_streamer_recv, hderef]
  · intro h_u h_s hc
    refine ⟨?_, ?_, ?_⟩ <;> simp [uhd_usrp_get_rx_stream, hc]
  · intro v
    simp [uhd_rx_streamer_recv, hderef]

/-- Witness for C6 at a concrete state: the recv fault message [120] is
stored into the streamer handle, while the same fault during attach
leaves the device handle untouched. -/
theorem C6_amended_fault_capture_witness :
    ((uhd_rx_streamer_recv (Except.error [120]) ⟨0, 0, []⟩
        ⟨1, [(0, ⟨some 11, [20], []⟩)]⟩).2.2.last_error = [120])
    ∧ (uhd_usrp_get_rx_stream (Except.error [120]) ⟨0, []⟩ ⟨9, 9, []⟩
        ⟨1, [(0, ⟨some 11, [20], []⟩)]⟩).2.2.1 = ⟨0, []⟩ := by
  have h := C6_amended_fault_capture [120] ⟨0, 0, []⟩
    ⟨1, [(0, ⟨some 11, [20], []⟩)]⟩ ⟨some 11, [20], []⟩ 20 (by decide) (by decide)
  exact ⟨h.1.2.1, (h.2.1 ⟨0, []⟩ ⟨9, 9, []⟩ (by decide)).2.1⟩

/-- Claim C7, counterexample: a single element that itself contains the
comma byte breaks the round trip.  For the one-element list [97, 44, 98]
with a large buffer, the returned count is 1 but the output buffer does
contain the delimiter, and splitting the buffer on commas and taking the
returned count of fields yields [[97]], not the original list. -/
theorem C7_counterexample_comma_in_element :
    ((uhd_usrp_get_rx_gain_names_run [[97, 44, 98]] 8).1 = 1)
    ∧ (44 ∈ cstring (uhd_usrp_get_rx_gain_names_run [[97, 44, 98]] 8).2)
    ∧ ((splitComma
          (cstring (uhd_usrp_get_rx_gain_names_run [[97, 44, 98]] 8).2)).take 1
        ≠ [[97, 44, 98]]) := by
  decide

theorem joinCommaFold_acc (elems : List (List Nat)) (acc : List Nat) :
    elems.foldl (fun a e => a ++ e ++ [44]) acc = acc ++ joinCommaFold elems := by
  induction elems generalizing acc with
  | nil => simp [joinCommaFold]
  | cons e rest ih =>
      simp only [joinCommaFold, List.foldl_cons] at ih ⊢
      rw [ih (acc ++ e ++ [44]), ih ([] ++ e ++ [44])]
      simp [List.append_assoc]

theorem joinCommaFold_cons (e : List Nat) (rest : List (List Nat)) :
    joinCommaFold (e :: rest) = (e ++ [44]) ++ joinCommaFold rest := by
  have h := joinCommaFold_acc rest (e ++ [44])
  simpa [joinCommaFold] using h

theorem joinCommaFold_ne_nil (e : List Nat) (rest : List (List Nat)) :
    joinCommaFold (e :: rest) ≠ [] := by
  rw [joinCommaFold_cons]
  simp

theorem joinComma_eq_rec (elems : List (List Nat)) :
    joinComma elems = joinCommaRec elems := by
  induction elems with
  | nil => rfl
  | cons e rest ih =>
      cases rest with
      | nil =>
          show (joinCommaFold [e]).dropLast = joinCommaRec [e]
          rw [joinCommaFold_cons]
          simp [joinCommaFold, joinCommaRec]
      | cons e2 rest2 =>
          have hF := joinCommaFold_ne_nil e2 rest2
          have h1 : joinComma (e :: e2 :: rest2)
              = ((e ++ [44]) ++ joinCommaFold (e2 :: rest2)).dropLast := by
            rw [joinComma, joinCommaFold_cons]
            simp
          rw [h1, List.dropLast_append_of_ne_nil _ hF]
          have h2 : (joinCommaFold (e2 :: rest2)).dropLast
              = joinCommaRec (e2 :: rest2) := by
            rw [← ih]
            simp [joinComma]
          rw [h2]
          show (e ++ [44]) ++ joinCommaRec (e2 :: rest2)
              = e ++ 44 :: joinCommaRec (e2 :: rest2)
          simp

theorem splitComma_no_comma (e : List Nat) (he : (44 : Nat) ∉ e) :
    splitComma e = [e] := by
  induction e with
  | nil => rfl
  | cons b rest ih =>
      have hb : ¬ b = 44 := fun h => he (by simp [h])
      have hrest : (44 : Nat) ∉ rest := fun hm => he (List.mem_cons_of_mem _ hm)
      simp [splitComma, hb, ih hrest]

theorem splitComma_append_comma (e t : List Nat) (he : (44 : Nat) ∉ e) :
    splitComma (e ++ 44 :: t) = e :: splitComma t := by
  induction e with
  | nil => simp [splitComma]
  | cons b rest ih =>
      have hb : ¬ b = 44 := fun h => he (by simp [h])
      have hrest : (44 : Nat) ∉ rest := fun hm => he (List.mem_cons_of_mem _ hm)
      rw [List.cons_append]
      simp only [splitComma, hb, if_false]
      rw [ih hrest]

theorem splitComma_joinCommaRec (elems : List (List Nat))
    (hnc : ∀ e ∈ elems, (44 : Nat) ∉ e) (hne : elems ≠ []) :
    splitComma (joinCommaRec elems) = elems := by
  induction elems with
  | nil => exact absurd rfl hne
  | cons e rest ih =>
      cases rest with
      | nil =>
          show splitComma (joinCommaRec [e]) = [e]
          exact splitComma_no_comma e (hnc e (by simp))
      | cons e2 rest2 =>
          have h1 : joinCommaRec (e :: e2 :: rest2)
              = e ++ 44 :: joinCommaRec (e2 :: rest2) := rfl
          rw [h1, splitComma_append_comma e _ (hnc e (by simp))]
          rw [ih (fun x hx => hnc x (List.mem_cons_of_mem _ hx)) (by simp)]

theorem zero_not_mem_joinCommaRec (elems : List (List Nat))
    (hz : ∀ e ∈ elems, (0 : Nat) ∉ e) : (0 : Nat) ∉ joinCommaRec elems := by
  induction elems with
  | nil => simp [joinCommaRec]
  | cons e rest ih =>
      cases rest with
      | nil =>
          show (0 : Nat) ∉ joinCommaRec [e]
          exact hz e (by simp)
      | cons e2 rest2 =>
          have h1 : joinCommaRec (e :: e2 :: rest2)
              = e ++ 44 :: joinCommaRec (e2 :: rest2) := rfl
          rw [h1]
          intro hmem
          rcases List.mem_append.mp hmem with hm | hm
          · exact hz e (by simp) hm
          · rcases List.mem_cons.mp hm with h44 | hm2
            · omega
            · exact ih (fun x hx => hz x (List.mem_cons_of_mem _ hx)) hm2

theorem takeWhile_append_zero (src rest : List Nat) (hz : (0 : Nat) ∉ src) :
    (src ++ 0 :: rest).takeWhile (fun b => decide (b ≠ 0)) = src := by
  induction src with
  | nil => simp
  | cons a s ih =>
      have ha : ¬ a = 0 := fun h => hz (by simp [h])
      have hs : (0 : Nat) ∉ s := fun hm => hz (List.mem_cons_of_mem _ hm)
      rw [List.cons_append,
        List.takeWhile_cons_of_pos (by simpa using ha), ih hs]

theorem cstring_strncpy (src : List Nat) (n : Nat)
    (hz : (0 : Nat) ∉ src) (hlen : src.length < n) :
    cstring (strncpyWrite (memset0 n) src n) = src := by
  have htake : src.take n = src := List.take_of_length_le (le_of_lt hlen)
  have hdrop : (memset0 n).drop n = [] := by
    simp [memset0]
  have hpad : n - src.length = (n - src.length - 1) + 1 := by omega
  rw [cstring, strncpyWrite, htake, hdrop, List.append_nil, hpad,
    List.replicate_succ]
  exact takeWhile_append_zero src _ hz

/-- Claim C7, amended: for a list-valued query whose elements contain
neither the comma delimiter nor a null byte, and a destination buffer
strictly larger than the joined string, the returned count equals the
number of native elements, splitting the buffer C string on commas and
taking that count of fields reproduces the element sequence, zero
elements leave an empty C string, a single element yields an output
containing no delimiter, and both modelled list queries produce
identical output. -/
theorem C7_amended_list_roundtrip (elems : List (List Nat)) (n : Nat)
    (hnc : ∀ e ∈ elems, (44 : Nat) ∉ e)
    (hnz : ∀ e ∈ elems, (0 : Nat) ∉ e)
    (hlen : (joinComma elems).length < n) :
    ((uhd_usrp_get_rx_gain_names_run elems n).1 = elems.length)
    ∧ ((splitComma
          (cstring (uhd_usrp_get_rx_gain_names_run elems n).2)).take
        elems.length = elems)
    ∧ (elems = [] → cstring (uhd_usrp_get_rx_gain_names_run elems n).2 = [])
    ∧ (∀ e, elems = [e] →
        (44 : Nat) ∉ cstring (uhd_usrp_get_rx_gain_names_run elems n).2)
    ∧ uhd_usrp_get_time_sources_run elems n
        = uhd_usrp_get_rx_gain_names_run elems n := by
  have hz0 : (0 : Nat) ∉ joinComma elems := by
    rw [joinComma_eq_rec]
    exact zero_not_mem_joinCommaRec elems hnz
  have hcs : cstring (uhd_usrp_get_rx_gain_names_run elems n).2
      = joinComma elems :=
    cstring_strncpy (joinComma elems) n hz0 hlen
  refine ⟨rfl, ?_, ?_, ?_, rfl⟩
  · rw [hcs]
    cases elems with
    | nil => rfl
    | cons e rest =>
        rw [joinComma_eq_rec,
          splitComma_joinCommaRec _ hnc (by simp)]
        exact List.take_length _
  · intro h0
    subst h0
    exact hcs
  · intro e he
    subst he
    rw [hcs, joinComma_eq_rec]
    exact hnc e (by simp)

/-- Witness for C7 at concrete comma-free elements [97] and [98, 99]
with buffer capacity 10. -/
theorem C7_amended_list_roundtrip_witness :
    ((uhd_usrp_get_rx_gain_names_run [[97], [98, 99]] 10).1 = 2)
    ∧ ((splitComma
          (cstring (uhd_usrp_get_rx_gain_names_run [[97], [98, 99]] 10).2)).take
        2 = [[97], [98, 99]]) := by
  have h := C7_amended_list_roundtrip [[97], [98, 99]] 10
    (by decide) (by decide) (by decide)
  exact ⟨h.1, h.2.1⟩
